import Mathlib

/-
Verification development for the pytket examples repository.

The repository consists of three Jupyter notebooks:
  * the QSE chemistry notebook (aqua_tket_qse, the file whose name is unknown),
  * examples/pyquil_example.ipynb, which contains two notebooks: the
    pyQuil retargetability example and the Cirq routing example.

The notebooks are straight-line glue code over external quantum-computing
libraries (qiskit, pytket, cirq, pyquil, grove, numpy).  We give a deep
embedding of the notebook code: an expression/statement language mirroring
exactly the Python constructs the notebooks use, an evaluator parameterised
by an interpretation of the external library calls, and the three notebook
programs transcribed cell by cell from the source.

External library calls are uninterpreted: the symbolic interpretation maps
every call to a free-algebra term (Val.ext), so the value computed by the
embedded program records exactly how repository code composes library
results.  Fallible evaluation lives in Except; an error anywhere aborts the
run, mirroring an uncaught Python exception terminating cell execution.

Machine floats in the source are modelled as exact rationals: the notebooks
only store float literals and hand them to libraries, never branch on any
float computation of their own.  Python complex literals are modelled as
pairs of rationals.  In-place mutating method calls (pass_manager.append,
qubitOp.chop, optimizer.set_options, optimise_pre_routing,
apply_boundary_map) are modelled by explicit state passing: the mutated
variable is rebound to the uninterpreted result of the call applied to its
old value, the standard state-passing reading of mutation.
-/

/-- Python literals occurring in the notebooks: numbers (ints and floats,
modelled as exact rationals), complex literals, strings and booleans. -/
inductive Lit where
  | num (q : ℚ)
  | cnum (re im : ℚ)
  | str (s : String)
  | bool (b : Bool)

/-- Embedded Python expressions: exactly the expression forms used by the
three notebooks.  An ecomp node is the comprehension
[xs[j] for i,j in enumerate(idxs)] from the Cirq routing notebook. -/
inductive Expr where
  | lit (l : Lit)
  | evar (x : String)
  | elist (es : List Expr)
  | edict (kvs : List (String × Expr))
  | ecall (fn : String) (args : List Expr)
  | emeth (recv : Expr) (m : String) (args : List Expr)
  | eattr (e : Expr) (f : String)
  | eindex (e : Expr) (ix : Expr)
  | eadd (a b : Expr)
  | esub (a b : Expr)
  | elen (e : Expr)
  | erange (e : Expr)
  | ecomp (xs : Expr) (idxs : Expr)

/-- Runtime values.  Concrete constructors (num, cnum, str, bool, vlist,
vdict) model Python data the repository code builds itself; the remaining
constructors are free-algebra terms recording computations whose meaning
lives in the external libraries: ext f args is the result of library call
f(args); attr, item and gets are projections out of such opaque results;
lenV, add, sub, fmtV and compV record the notebook-side len, +, -,
str.format and comprehension applied to not-yet-concrete operands. -/
inductive Val where
  | num (q : ℚ)
  | cnum (re im : ℚ)
  | str (s : String)
  | bool (b : Bool)
  | vlist (vs : List Val)
  | vdict (kvs : List (String × Val))
  | ext (fn : String) (args : List Val)
  | attr (v : Val) (f : String)
  | item (v : Val) (i : ℕ)
  | gets (v : Val) (k : String)
  | lenV (v : Val)
  | add (a b : Val)
  | sub (a b : Val)
  | fmtV (s : String) (v : Val)
  | compV (xs idxs : Val)

/-- Observable effects of a notebook cell: a print statement's arguments,
or the rendered value of a trailing bare expression. -/
inductive Eff where
  | printed (vs : List Val)
  | rendered (v : Val)

/-- Embedded Python statements: exactly the statement forms used by the
notebooks, plus two forms the notebooks never use (tryCatch and openFile)
so that the absence of error handling and of file access is expressible.
mutateS x f args models the in-place mutating call x.f(args) (or f(x) for
optimise_pre_routing) by rebinding x to the call result; forRangeAppend
models the loop for i in range(n): target.append(elt). -/
inductive Stmt where
  | importS (mod : String) (names : List String)
  | assign (x : String) (e : Expr)
  | assign2 (x y : String) (e : Expr)
  | mutateS (x : String) (fn : String) (args : List Expr)
  | exprS (e : Expr)
  | printS (args : List Expr)
  | forRangeAppend (i : String) (n : Expr) (target : String) (elt : Expr)
  | tryCatch (body handler : List Expr)
  | openFile (x : String) (path mode : String)

/-- A notebook cell is the list of statements of one code cell. -/
abbrev Cell := List Stmt

/-- Variable environments, newest binding first (assignment shadows). -/
abbrev Env := List (String × Val)

/-- Environment lookup, newest binding first. -/
def lookupEnv (env : Env) (x : String) : Option Val :=
  match env with
  | [] => none
  | (y, v) :: rest => if y == x then some v else lookupEnv rest x

/-- Assignment: prepend, shadowing any earlier binding. -/
def setEnv (env : Env) (x : String) (v : Val) : Env := (x, v) :: env

/-- Dictionary key lookup. -/
def lookupKV (kvs : List (String × Val)) (k : String) : Option Val :=
  match kvs with
  | [] => none
  | (y, v) :: rest => if y == k then some v else lookupKV rest k

/-- An interpretation of the external world: the meaning of each library
call (functions, constructors and methods, the receiver passed as first
argument) and of each attribute read on a value the repository code did
not build itself (library objects, and the builtin real and imag
attributes of Python complex numbers). -/
structure Interp where
  call : String → List Val → Except String Val
  attr : Val → String → Except String Val

/-- The symbolic interpretation: every library call and attribute read is
uninterpreted, producing the corresponding free-algebra term. -/
def symInterp : Interp where
  call := fun f vs => .ok (.ext f vs)
  attr := fun v f => .ok (.attr v f)

/-- Replace the first occurrence of the two-character brace placeholder in
a character list by the argument, mirroring str.format with one field. -/
def replaceBraces (cs : List Char) (arg : List Char) : List Char :=
  match cs with
  | [] => []
  | c :: rest =>
    match c, rest with
    | '\x7b', '\x7d' :: rest2 => arg ++ rest2
    | _, _ => c :: replaceBraces rest arg

/-- Python str.format with a single positional field. -/
def pyFormat (s arg : String) : String :=
  ⟨replaceBraces s.data arg.data⟩

/-- Left-pad a character list with zeros to the given length. -/
def padZeros (cs : List Char) (n : ℕ) : List Char :=
  List.replicate (n - cs.length) '0' ++ cs

/-- Smallest exponent e ≤ 40 with d dividing 10 ^ e, if any. -/
def pow10Exp (d : ℕ) : Option ℕ :=
  (List.range 41).find? (fun e => 10 ^ e % d == 0)

/-- Decimal rendering of a rational, mirroring Python repr of floats for
the finite decimal fractions the notebooks print. -/
def floatRepr (q : ℚ) : String :=
  let sgn : String := if q < 0 then "-" else ""
  let n : ℕ := q.num.natAbs
  let d : ℕ := q.den
  match pow10Exp d with
  | some 0 => sgn ++ toString n ++ ".0"
  | some e =>
    let m : ℕ := n * (10 ^ e / d)
    let cs : List Char := padZeros (toString m).data (e + 1)
    let ip : List Char := cs.take (cs.length - e)
    let fp : List Char := cs.drop (cs.length - e)
    sgn ++ (⟨ip⟩ : String) ++ "." ++ (⟨fp⟩ : String)
  | none => sgn ++ toString n ++ "/" ++ toString d

/-- Exact rational addition, written out through mkRat so that it
computes definitionally (the library addition on ℚ is irreducible).
Provably equal to the ordinary addition. -/
def ratAdd (a b : ℚ) : ℚ := mkRat (a.num * b.den + b.num * a.den) (a.den * b.den)

/-- Exact rational subtraction, written out through mkRat so that it
computes definitionally.  Provably equal to the ordinary subtraction. -/
def ratSub (a b : ℚ) : ℚ := mkRat (a.num * b.den - b.num * a.den) (a.den * b.den)

/-- The computable addition agrees with the addition on ℚ. -/
theorem ratAdd_eq (a b : ℚ) : ratAdd a b = a + b := by
  rw [ratAdd, Rat.add_def']

/-- The computable subtraction agrees with the subtraction on ℚ. -/
theorem ratSub_eq (a b : ℚ) : ratSub a b = a - b := by
  rw [ratSub, Rat.sub_def']

/-- Python + as used by the notebooks: exact on numbers, elementwise on a
NumPy-style array plus a scalar (modelling NumPy broadcasting, which is
library behaviour), and a symbolic add term otherwise. -/
def addVal (a b : Val) : Val :=
  match a, b with
  | .num x, .num y => .num (ratAdd x y)
  | .vlist vs, .num y =>
    .vlist (vs.map (fun v =>
      match v with
      | .num x => .num (ratAdd x y)
      | w => .add w (.num y)))
  | x, y => .add x y

/-- Python - as used by the notebooks: exact on numbers, symbolic term
otherwise. -/
def subVal (a b : Val) : Val :=
  match a, b with
  | .num x, .num y => .num (ratSub x y)
  | x, y => .sub x y

/-- Python str.format applied to an evaluated argument. -/
def formatVal (s : String) (v : Val) : Val :=
  match v with
  | .num q => .str (pyFormat s (floatRepr q))
  | .str t => .str (pyFormat s t)
  | w => .fmtV s w

/-- Literal evaluation. -/
def litVal (l : Lit) : Val :=
  match l with
  | .num q => .num q
  | .cnum a b => .cnum a b
  | .str s => .str s
  | .bool b => .bool b

/-- Evaluate the comprehension body: index each j of the index list into
the concrete list qs, with Python semantics (int index, bounds checked). -/
def indexMap (qs : List Val) : List Val → Except String (List Val)
  | [] => .ok []
  | j :: js =>
    match j with
    | .num q =>
      if q.den = 1 ∧ 0 ≤ q.num then
        if h : q.num.toNat < qs.length then
          match indexMap qs js with
          | .ok ws => .ok (qs.get ⟨q.num.toNat, h⟩ :: ws)
          | .error e => .error e
        else .error "IndexError: list index out of range"
      else .error "TypeError: list indices must be integers"
    | _ => .error "TypeError: list indices must be integers"

/-- Expression evaluation under an interpretation I of the external
libraries.  The fuel argument bounds syntactic recursion depth only (it is
spent on nested sub-expressions, never on data), so any fuel at least the
expression depth gives the same result. -/
def evalExpr (I : Interp) : ℕ → Env → Expr → Except String Val
  | _, _, .lit l => .ok (litVal l)
  | _, env, .evar x =>
    match lookupEnv env x with
    | some v => .ok v
    | none => .error ("NameError: name " ++ x ++ " is not defined")
  | 0, _, _ => .error "fuel exhausted"
  | fuel + 1, env, .elist es => do
    let vs ← es.mapM (evalExpr I fuel env)
    .ok (.vlist vs)
  | fuel + 1, env, .edict kvs => do
    let ws ← kvs.mapM (fun kv => do
      let v ← evalExpr I fuel env kv.2
      pure (kv.1, v))
    .ok (.vdict ws)
  | fuel + 1, env, .ecall fn args => do
    let vs ← args.mapM (evalExpr I fuel env)
    I.call fn vs
  | fuel + 1, env, .emeth r m args => do
    let rv ← evalExpr I fuel env r
    let vs ← args.mapM (evalExpr I fuel env)
    match rv, m, vs with
    | .str s, "format", [v] => .ok (formatVal s v)
    | _, _, _ => I.call m (rv :: vs)
  | fuel + 1, env, .eattr e f => do
    let v ← evalExpr I fuel env e
    I.attr v f
  | fuel + 1, env, .eindex e ix => do
    let v ← evalExpr I fuel env e
    let i ← evalExpr I fuel env ix
    match i with
    | .num q =>
      if q.den = 1 ∧ 0 ≤ q.num then
        match v with
        | .vlist vs =>
          if h : q.num.toNat < vs.length then .ok (vs.get ⟨q.num.toNat, h⟩)
          else .error "IndexError: list index out of range"
        | .vdict _ => .error "TypeError: dict subscript must be a string"
        | w => .ok (.item w q.num.toNat)
      else .error "TypeError: list indices must be integers"
    | .str k =>
      match v with
      | .vdict kvs =>
        match lookupKV kvs k with
        | some w => .ok w
        | none => .error ("KeyError: " ++ k)
      | .vlist _ => .error "TypeError: list indices must be integers"
      | w => .ok (.gets w k)
    | _ => .error "TypeError: bad subscript"
  | fuel + 1, env, .eadd a b => do
    let x ← evalExpr I fuel env a
    let y ← evalExpr I fuel env b
    .ok (addVal x y)
  | fuel + 1, env, .esub a b => do
    let x ← evalExpr I fuel env a
    let y ← evalExpr I fuel env b
    .ok (subVal x y)
  | fuel + 1, env, .elen e => do
    let v ← evalExpr I fuel env e
    match v with
    | .vlist vs => .ok (.num vs.length)
    | .vdict kvs => .ok (.num kvs.length)
    | .str s => .ok (.num s.length)
    | w => .ok (.lenV w)
  | fuel + 1, env, .erange e => do
    let v ← evalExpr I fuel env e
    match v with
    | .num q =>
      if q.den = 1 ∧ 0 ≤ q.num then
        .ok (.vlist ((List.range q.num.toNat).map (fun k => .num k)))
      else .error "TypeError: range arg"
    | _ => .error "TypeError: range arg"
  | fuel + 1, env, .ecomp xs idxs => do
    let xv ← evalExpr I fuel env xs
    let iv ← evalExpr I fuel env idxs
    match xv, iv with
    | .vlist qs, .vlist js => do
      let ws ← indexMap qs js
      .ok (.vlist ws)
    | a, b => .ok (.compV a b)

/-- Fuel used for every statement-level evaluation: larger than the depth
of any expression in the notebooks. -/
def exprFuel : ℕ := 60

/-- Evaluate a list of expressions at the standard fuel. -/
def evalArgs (I : Interp) (env : Env) (es : List Expr) :
    Except String (List Val) :=
  es.mapM (evalExpr I exprFuel env)

/-- Execute one statement: result is the new environment and the effects
the statement emits.  An error models an uncaught Python exception. -/
def execStmt (I : Interp) (env : Env) : Stmt → Except String (Env × List Eff)
  | .importS _ _ => .ok (env, [])
  | .assign x e => do
    let v ← evalExpr I exprFuel env e
    .ok (setEnv env x v, [])
  | .assign2 x y e => do
    let v ← evalExpr I exprFuel env e
    match v with
    | .vlist [a, b] => .ok (setEnv (setEnv env x a) y b, [])
    | .vlist _ => .error "ValueError: unpacking mismatch"
    | .vdict _ => .error "TypeError: cannot unpack"
    | w => .ok (setEnv (setEnv env x (.item w 0)) y (.item w 1), [])
  | .mutateS x fn args =>
    match lookupEnv env x with
    | none => .error ("NameError: name " ++ x ++ " is not defined")
    | some recv => do
      let vs ← evalArgs I env args
      let v' ← I.call fn (recv :: vs)
      .ok (setEnv env x v', [])
  | .exprS e => do
    let v ← evalExpr I exprFuel env e
    .ok (env, [.rendered v])
  | .printS args => do
    let vs ← evalArgs I env args
    .ok (env, [.printed vs])
  | .forRangeAppend _ n target elt => do
    let nv ← evalExpr I exprFuel env n
    match nv with
    | .num q =>
      if q.den = 1 ∧ 0 ≤ q.num then
        match lookupEnv env target with
        | some (.vlist vs) => do
          let v ← evalExpr I exprFuel env elt
          .ok (setEnv env target (.vlist (vs ++ List.replicate q.num.toNat v)), [])
        | some _ => .error "AttributeError: append"
        | none => .error ("NameError: name " ++ target ++ " is not defined")
      else .error "TypeError: range arg"
    | _ => .error "TypeError: range arg"
  | .tryCatch body handler =>
    match evalArgs I env body with
    | .ok _ => .ok (env, [])
    | .error _ =>
      match evalArgs I env handler with
      | .ok _ => .ok (env, [])
      | .error e => .error e
  | .openFile x path mode => .ok (setEnv env x (.ext "open" [.str path, .str mode]), [])

/-- Execute a statement list in order, threading the environment and
concatenating effects; the first error aborts the whole run. -/
def execStmts (I : Interp) (env : Env) : List Stmt → Except String (Env × List Eff)
  | [] => .ok (env, [])
  | s :: rest =>
    match execStmt I env s with
    | .error e => .error e
    | .ok (env', t1) =>
      match execStmts I env' rest with
      | .error e => .error e
      | .ok (env'', t2) => .ok (env'', t1 ++ t2)

/-- Concatenate the code cells of a notebook into its statement sequence:
the kernel executes the cells one after the other in order. -/
def progStmts (cells : List Cell) : List Stmt := cells.foldr (· ++ ·) []

/-- Run a notebook from the empty environment. -/
def runProg (I : Interp) (cells : List Cell) : Except String (Env × List Eff) :=
  execStmts I [] (progStmts cells)

/-- Final value of a variable after a successful run. -/
def runLookup (I : Interp) (cells : List Cell) (x : String) : Option Val :=
  match runProg I cells with
  | .ok (env, _) => lookupEnv env x
  | .error _ => none

/-- Effect trace of a successful run. -/
def runEffs (I : Interp) (cells : List Cell) : Option (List Eff) :=
  match runProg I cells with
  | .ok (_, effs) => some effs
  | .error _ => none

/-
The QSE chemistry notebook, transcribed code cell by code cell.
Keyword arguments are passed positionally in source order.
-/

/-- QSE notebook cell 1: import qiskit and pytket. -/
def qseCell1 : Cell := [.importS "qiskit" [], .importS "pytket" []]

/-- The bond length 0.7 written as an explicit reduced fraction, so that
its numerator and denominator compute definitionally when formatted. -/
def bondLenQ : ℚ := ⟨7, 10, by decide, by decide⟩

/-- The bond length constant equals seven tenths. -/
theorem bondLenQ_eq : bondLenQ = 7 / 10 := by
  rw [bondLenQ, Rat.mk'_eq_divInt, Rat.divInt_eq_div]
  norm_num

/-- QSE notebook cell 2: molecule configuration literals.  The shipped
geometry template is the H2 string; the LiH template is commented out in
the source and hence absent from the program. -/
def qseCell2 : Cell := [
  .assign "bond_length" (.lit (.num bondLenQ)),
  .assign "base_molecule_str" (.lit (.str "H .0 .0 .0; H .0 .0 \x7b\x7d")),
  .assign "charge" (.lit (.num 0)),
  .assign "spin" (.lit (.num 0)),
  .assign "basis" (.lit (.str "sto3g"))]

/-- QSE notebook cell 3: choose the local statevector simulator backend
(the remote-backend lines are commented out in the source). -/
def qseCell3 : Cell := [
  .assign "backend_name" (.lit (.str "statevector_simulator")),
  .assign "backend" (.ecall "qiskit.Aer.get_backend" [.evar "backend_name"])]

/-- QSE notebook cell 4: set up the PassManager with TketPass and the
QuantumInstance. -/
def qseCell4 : Cell := [
  .importS "qiskit_aqua" ["QuantumInstance"],
  .importS "qiskit.transpiler" ["PassManager"],
  .importS "pytket.qiskit" ["TketPass"],
  .assign "pass_manager" (.ecall "PassManager" []),
  .assign "tk_pass" (.ecall "TketPass" [.evar "backend"]),
  .mutateS "pass_manager" "append" [.evar "tk_pass"],
  .assign "quantum_instance" (.ecall "QuantumInstance" [.evar "backend", .evar "pass_manager"])]

/-- QSE notebook cell 5: run the PySCF classical chemistry driver on the
configuration dictionary and print the nuclear repulsion energy. -/
def qseCell5 : Cell := [
  .importS "qiskit_aqua_chemistry.drivers" ["ConfigurationManager"],
  .assign "cfg_mgr" (.ecall "ConfigurationManager" []),
  .assign "driver" (.emeth (.evar "cfg_mgr") "get_driver_instance" [.lit (.str "PYSCF")]),
  .assign "pyscf_cfg" (.edict [
    ("atom", .emeth (.evar "base_molecule_str") "format" [.evar "bond_length"]),
    ("unit", .lit (.str "Angstrom")),
    ("charge", .evar "charge"),
    ("spin", .evar "spin"),
    ("basis", .evar "basis")]),
  .assign "molecule" (.emeth (.evar "driver") "run" [.edict [("properties", .evar "pyscf_cfg")]]),
  .printS [.lit (.str "Molecular repulsion energy: "), .eattr (.evar "molecule") "nuclear_repulsion_energy"]]

/-- QSE notebook cell 6: Jordan-Wigner mapping of the fermionic operator,
Hartree-Fock initial state and UCCSD variational form. -/
def qseCell6 : Cell := [
  .importS "qiskit_aqua_chemistry" ["FermionicOperator"],
  .importS "qiskit_aqua_chemistry.aqua_extensions.components.initial_states" ["HartreeFock"],
  .importS "qiskit_aqua_chemistry.aqua_extensions.components.variational_forms" ["UCCSD"],
  .assign "n_qubits" (.eindex (.eattr (.eattr (.evar "molecule") "one_body_integrals") "shape") (.lit (.num 0))),
  .assign "n_electrons" (.esub (.eadd (.eattr (.evar "molecule") "num_alpha") (.eattr (.evar "molecule") "num_beta")) (.eattr (.evar "molecule") "molecular_charge")),
  .assign "ferOp" (.ecall "FermionicOperator" [.eattr (.evar "molecule") "one_body_integrals", .eattr (.evar "molecule") "two_body_integrals"]),
  .assign "qubitOp" (.emeth (.evar "ferOp") "mapping" [.lit (.str "JORDAN_WIGNER"), .lit (.num (1/100000000))]),
  .mutateS "qubitOp" "chop" [.lit (.num (1/10000000000))],
  .assign "initial_hf" (.ecall "HartreeFock" [.evar "n_qubits", .evar "n_qubits", .lit (.str "jordan_wigner"), .lit (.bool false), .evar "n_electrons"]),
  .assign "var_form" (.ecall "UCCSD" [.evar "n_qubits", .evar "n_qubits", .evar "n_electrons", .lit (.num 1), .evar "initial_hf", .lit (.str "jordan_wigner")])]

/-- QSE cell 7 statement: number_amplitudes is the count of the
variational form's single excitations plus its double excitations. -/
def stNumberAmps : Stmt := .assign "number_amplitudes"
  (.eadd (.elen (.eattr (.evar "var_form") "_single_excitations"))
         (.elen (.eattr (.evar "var_form") "_double_excitations")))

/-- QSE cell 7 statement: amplitudes_0 starts as the empty list. -/
def stAmps0Init : Stmt := .assign "amplitudes_0" (.elist [])

/-- QSE cell 7 statement: the loop appending 0.00001 to amplitudes_0
number_amplitudes times. -/
def stAmpsLoop : Stmt :=
  .forRangeAppend "i" (.evar "number_amplitudes") "amplitudes_0" (.lit (.num (1/100000)))

/-- QSE cell 7 statement: eigval is the first entry of the eigvals array
of the VQE result. -/
def stEigval : Stmt :=
  .assign "eigval" (.eindex (.eindex (.evar "results") (.lit (.str "eigvals"))) (.lit (.num 0)))

/-- QSE cell 7 statement: the ground-state energy is the real part of
eigval plus the molecule's nuclear repulsion energy. -/
def stGsEnergy : Stmt :=
  .assign "gs_energy" (.eadd (.eattr (.evar "eigval") "real") (.eattr (.evar "molecule") "nuclear_repulsion_energy"))

/-- QSE cell 7 statement: print the ground-state energy. -/
def stPrintGs : Stmt :=
  .printS [.emeth (.lit (.str "GS Minimum value: \x7b\x7d")) "format" [.evar "gs_energy"]]

/-- QSE notebook cell 7: build the initial amplitudes, run VQE with the
L_BFGS_B optimizer and report the ground-state energy and parameters. -/
def qseCell7 : Cell := [
  .importS "qiskit_aqua.components.optimizers" ["L_BFGS_B"],
  .importS "qiskit_aqua.algorithms" ["VQE"],
  stNumberAmps, stAmps0Init, stAmpsLoop,
  .assign "optimizer" (.ecall "L_BFGS_B" []),
  .mutateS "optimizer" "set_options" [.lit (.num 1000), .lit (.num 10), .lit (.num 10)],
  .assign "vqe_algorithm" (.ecall "VQE" [.evar "qubitOp", .lit (.str "matrix"), .evar "var_form", .evar "optimizer", .evar "amplitudes_0"]),
  .assign "results" (.emeth (.evar "vqe_algorithm") "run" [.evar "quantum_instance"]),
  stEigval, stGsEnergy, stPrintGs,
  .printS [.emeth (.lit (.str "GS Parameters: \x7b\x7d")) "format" [.eindex (.evar "results") (.lit (.str "opt_params"))]],
  .assign "opti_amplitudes" (.eindex (.evar "results") (.lit (.str "opt_params")))]

/-- QSE cell 8 statement: energies is the eigvals array of the QSE run. -/
def stEnergies : Stmt :=
  .assign "energies" (.eindex (.emeth (.evar "qse_algorithm") "run" [.evar "quantum_instance"]) (.lit (.str "eigvals")))

/-- QSE cell 8 statement: print the excited-state energies shifted by the
nuclear repulsion energy. -/
def stPrintExcited : Stmt :=
  .printS [.lit (.str "Excited State Energies: "), .eadd (.evar "energies") (.eattr (.evar "molecule") "nuclear_repulsion_energy")]

/-- QSE notebook cell 8: rebuild the qubit operator, run QSE and print the
excited-state energies. -/
def qseCell8 : Cell := [
  .importS "pytket.chemistry" ["QseMatrices", "QSE"],
  .assign "qubitOp" (.emeth (.evar "ferOp") "mapping" [.lit (.str "JORDAN_WIGNER"), .lit (.num (1/100000000))]),
  .assign "n_qubits" (.eattr (.evar "qubitOp") "num_qubits"),
  .mutateS "qubitOp" "chop" [.lit (.num (1/10000000000))],
  .assign "matrix_terms" (.ecall "QseMatrices" [.evar "qubitOp", .evar "n_qubits"]),
  .assign "qse_algorithm" (.ecall "QSE" [.evar "matrix_terms", .lit (.str "matrix"), .evar "var_form", .evar "opti_amplitudes"]),
  stEnergies, stPrintExcited]

/-- The QSE chemistry notebook: its eight code cells in order. -/
def qseProg : List Cell :=
  [qseCell1, qseCell2, qseCell3, qseCell4, qseCell5, qseCell6, qseCell7, qseCell8]

/-
The pyQuil retargetability notebook from examples/pyquil_example.ipynb.
-/

/-- pyQuil notebook cell 1: Grove arbitrary state preparation.  The
complex literals 1j*0.5 and -1j*0.5 are constant-folded. -/
def pyquilCell1 : Cell := [
  .importS "grove.alpha.arbitrary_state.arbitrary_state" ["create_arbitrary_state"],
  .importS "numpy" [],
  .assign "target_state" (.ecall "np.array" [.elist [.lit (.num (1/2)), .lit (.cnum 0 (1/2)), .lit (.cnum 0 (-1/2)), .lit (.cnum 0 (1/2))]]),
  .assign "quil_circ" (.ecall "create_arbitrary_state" [.evar "target_state"]),
  .printS [.evar "quil_circ"]]

/-- pyQuil notebook cell 2: convert the pyQuil program to a tket circuit. -/
def pyquilCell2 : Cell := [
  .importS "pytket.pyquil" ["pyquil_to_tk"],
  .assign "tk_circ" (.ecall "pyquil_to_tk" [.evar "quil_circ"])]

/-- pyQuil notebook cell 3: optimise in place and permute the qubit
boundary map. -/
def pyquilCell3 : Cell := [
  .importS "pytket._circuit" ["optimise_pre_routing"],
  .mutateS "tk_circ" "optimise_pre_routing" [],
  .mutateS "tk_circ" "apply_boundary_map" [.elist [.lit (.num 1), .lit (.num 0)]]]

/-- pyQuil notebook cell 4: convert to Qiskit and run on the unitary
simulator, printing the resulting matrix. -/
def pyquilCell4 : Cell := [
  .importS "pytket.qiskit" ["tk_to_dagcircuit"],
  .assign "dag_circ" (.ecall "tk_to_dagcircuit" [.evar "tk_circ"]),
  .importS "qiskit.converters" ["dag_to_circuit"],
  .assign "qis_circ" (.ecall "dag_to_circuit" [.evar "dag_circ"]),
  .importS "qiskit" ["BasicAer", "execute"],
  .assign "backend" (.ecall "BasicAer.get_backend" [.lit (.str "unitary_simulator")]),
  .assign "job" (.ecall "execute" [.evar "qis_circ", .evar "backend"]),
  .assign "matrix" (.emeth (.emeth (.evar "job") "result" []) "get_unitary" [.evar "qis_circ"]),
  .printS [.evar "matrix"]]

/-- The pyQuil retargetability notebook: its four code cells in order. -/
def pyquilProg : List Cell := [pyquilCell1, pyquilCell2, pyquilCell3, pyquilCell4]

/-
The Cirq routing notebook from examples/pyquil_example.ipynb.
-/

/-- Cirq notebook cell 1: imports. -/
def cirqCell1 : Cell := [
  .importS "cirq" [],
  .importS "pytket._routing" ["SquareGrid", "route"],
  .importS "pytket.cirq" ["get_grid_qubits", "cirq_to_tk", "tk_to_cirq"]]

/-- Cirq notebook cell 2: the 3x3 grid and its nine qubits. -/
def cirqCell2 : Cell := [
  .assign "arc" (.ecall "SquareGrid" [.lit (.num 3), .lit (.num 3)]),
  .assign "qubits" (.ecall "get_grid_qubits" [.evar "arc", .erange (.lit (.num 9))])]

/-- Cirq notebook cell 3: the sample circuit, rendered at the cell end. -/
def cirqCell3 : Cell := [
  .assign "circuit" (.ecall "cirq.Circuit.from_ops" [
    .ecall "cirq.H" [.eindex (.evar "qubits") (.lit (.num 0))],
    .ecall "cirq.X" [.eindex (.evar "qubits") (.lit (.num 1))],
    .ecall "cirq.CNOT" [.eindex (.evar "qubits") (.lit (.num 0)), .eindex (.evar "qubits") (.lit (.num 4))],
    .ecall "cirq.Y" [.eindex (.evar "qubits") (.lit (.num 2))],
    .ecall "cirq.CNOT" [.eindex (.evar "qubits") (.lit (.num 2)), .eindex (.evar "qubits") (.lit (.num 4))],
    .ecall "cirq.CNOT" [.eindex (.evar "qubits") (.lit (.num 3)), .eindex (.evar "qubits") (.lit (.num 4))],
    .ecall "cirq.Y" [.eindex (.evar "qubits") (.lit (.num 3))],
    .ecall "cirq.CNOT" [.eindex (.evar "qubits") (.lit (.num 3)), .eindex (.evar "qubits") (.lit (.num 5))],
    .ecall "cirq.Z" [.eindex (.evar "qubits") (.lit (.num 4))]]),
  .exprS (.evar "circuit")]

/-- Cirq cell 4 statement: the comprehension
final_qubits = [qubits[j] for i,j in enumerate(qmap[0])]. -/
def stFinalQubits : Stmt :=
  .assign "final_qubits" (.ecomp (.evar "qubits") (.eindex (.evar "qmap") (.lit (.num 0))))

/-- Cirq notebook cell 4: route the circuit, print the qubit maps, build
final_qubits and render the routed circuit back in Cirq form. -/
def cirqCell4 : Cell := [
  .assign "tk_circ" (.ecall "cirq_to_tk" [.evar "circuit"]),
  .assign2 "tk_routed" "qmap" (.ecall "route" [.evar "tk_circ", .evar "arc"]),
  .printS [.evar "qmap"],
  stFinalQubits,
  .exprS (.ecall "tk_to_cirq" [.evar "tk_routed", .evar "final_qubits"])]

/-- The Cirq routing notebook: its four code cells in order (the trailing
empty cell of the source contains no statements). -/
def cirqProg : List Cell := [cirqCell1, cirqCell2, cirqCell3, cirqCell4]

/-- The symbolic interpretation refined with concrete excitation lists:
reading the _single_excitations (resp. _double_excitations) attribute
yields a list of ns (resp. nd) opaque excitations, every other call and
attribute read stays uninterpreted.  This is the least interpretation
under which the QSE notebook's amplitude loop has a definite trip count. -/
def symInterpX (ns nd : ℕ) : Interp where
  call := fun f vs => .ok (.ext f vs)
  attr := fun v f =>
    if f == "_single_excitations" then
      .ok (.vlist (List.replicate ns (.ext "single_excitation" [])))
    else if f == "_double_excitations" then
      .ok (.vlist (List.replicate nd (.ext "double_excitation" [])))
    else .ok (.attr v f)

/-
General lemmas about the evaluator.
-/

/-- Monadic bind on an ok result steps to the continuation. -/
theorem exceptBindOk {a b : Type} (x : a) (f : a → Except String b) :
    Bind.bind (Except.ok x) f = f x := rfl

/-- A natural number cast to ℚ has denominator one. -/
theorem natCastDen (n : ℕ) : ((n : ℚ)).den = 1 := Rat.den_natCast n

/-- Round trip of a natural number through the ℚ numerator. -/
theorem natCastNumToNat (n : ℕ) : ((n : ℚ)).num.toNat = n := by
  rw [Rat.num_natCast, Int.toNat_natCast]

/-- A natural number cast to ℚ has nonnegative numerator. -/
theorem natCastNumNonneg (n : ℕ) : 0 ≤ ((n : ℚ)).num := by
  rw [Rat.num_natCast]
  exact Int.natCast_nonneg n

/-- Sequential decomposition: executing a concatenated statement list is
executing the first part, then the second from the resulting environment,
with the effect traces concatenated in order; an error in the first part
is the error of the whole. -/
theorem execStmts_append (I : Interp) (env : Env) (xs ys : List Stmt) :
    execStmts I env (xs ++ ys) =
      match execStmts I env xs with
      | .error e => .error e
      | .ok (env', t1) =>
        match execStmts I env' ys with
        | .error e => .error e
        | .ok (env'', t2) => .ok (env'', t1 ++ t2) := by
  induction xs generalizing env with
  | nil =>
    simp only [List.nil_append, execStmts]
    cases h : execStmts I env ys with
    | error e => rfl
    | ok r => rfl
  | cons s rest ih =>
    simp only [List.cons_append, execStmts, List.append_eq]
    cases hs : execStmt I env s with
    | error e => rfl
    | ok r =>
      obtain ⟨env', t1⟩ := r
      dsimp only
      rw [ih env']
      cases h2 : execStmts I env' rest with
      | error e => rfl
      | ok r2 =>
        obtain ⟨env'', t2⟩ := r2
        dsimp only
        cases h3 : execStmts I env'' ys with
        | error e => rfl
        | ok r3 =>
          obtain ⟨env3, t3⟩ := r3
          dsimp only
          rw [List.append_assoc]

/-
Syntactic analysis of the embedded programs.
-/

/-- All library-call names (functions and methods) in an expression. -/
def exprCallNames : ℕ → Expr → List String
  | _, .lit _ => []
  | _, .evar _ => []
  | 0, _ => []
  | fuel + 1, .elist es => (es.map (exprCallNames fuel)).foldr (· ++ ·) []
  | fuel + 1, .edict kvs => (kvs.map (fun kv => exprCallNames fuel kv.2)).foldr (· ++ ·) []
  | fuel + 1, .ecall fn args => fn :: (args.map (exprCallNames fuel)).foldr (· ++ ·) []
  | fuel + 1, .emeth r m args =>
    m :: (exprCallNames fuel r ++ (args.map (exprCallNames fuel)).foldr (· ++ ·) [])
  | fuel + 1, .eattr e _ => exprCallNames fuel e
  | fuel + 1, .eindex e ix => exprCallNames fuel e ++ exprCallNames fuel ix
  | fuel + 1, .eadd a b => exprCallNames fuel a ++ exprCallNames fuel b
  | fuel + 1, .esub a b => exprCallNames fuel a ++ exprCallNames fuel b
  | fuel + 1, .elen e => exprCallNames fuel e
  | fuel + 1, .erange e => exprCallNames fuel e
  | fuel + 1, .ecomp a b => exprCallNames fuel a ++ exprCallNames fuel b

/-- All call names in a statement (the append of the amplitude loop is
the builtin list append). -/
def stmtCallNames : Stmt → List String
  | .importS _ _ => []
  | .assign _ e => exprCallNames exprFuel e
  | .assign2 _ _ e => exprCallNames exprFuel e
  | .mutateS _ fn args => fn :: (args.map (exprCallNames exprFuel)).foldr (· ++ ·) []
  | .exprS e => exprCallNames exprFuel e
  | .printS args => (args.map (exprCallNames exprFuel)).foldr (· ++ ·) []
  | .forRangeAppend _ n _ elt =>
    exprCallNames exprFuel n ++ "append" :: exprCallNames exprFuel elt
  | .tryCatch body handler =>
    (body.map (exprCallNames exprFuel)).foldr (· ++ ·) [] ++
      (handler.map (exprCallNames exprFuel)).foldr (· ++ ·) []
  | .openFile _ _ _ => ["open"]

/-- All call names of a notebook. -/
def progCallNames (cells : List Cell) : List String :=
  ((progStmts cells).map stmtCallNames).foldr (· ++ ·) []

/-- All imported module names of a notebook. -/
def progImports (cells : List Cell) : List String :=
  (progStmts cells).filterMap (fun s =>
    match s with
    | .importS m _ => some m
    | _ => none)

/-- Does the notebook contain a try/except form anywhere? -/
def progHasTry (cells : List Cell) : Bool :=
  (progStmts cells).any (fun s =>
    match s with
    | .tryCatch _ _ => true
    | _ => false)

/-- Does the notebook open a file anywhere? -/
def progOpensFile (cells : List Cell) : Bool :=
  (progStmts cells).any (fun s =>
    match s with
    | .openFile _ _ _ => true
    | _ => false)

/-- Does an expression contain a library call? -/
def exprHasCall (e : Expr) : Bool := !(exprCallNames exprFuel e).isEmpty

/-- Is an expression pure configuration data: a literal, a reference to
an already-bound variable, or a list/dict built from such, with no
attribute read, no indexing, no arithmetic, no len, no formatting and no
comprehension? -/
def isConfigExpr : ℕ → Expr → Bool
  | _, .lit _ => true
  | _, .evar _ => true
  | 0, _ => false
  | fuel + 1, .elist es => es.all (isConfigExpr fuel)
  | fuel + 1, .edict kvs => kvs.all (fun kv => isConfigExpr fuel kv.2)
  | _ + 1, _ => false

/-- The kinds of step a notebook statement performs: the spec's four
(importing an external library, configuring molecule/circuit parameters,
invoking a library API, printing or rendering output), plus a fifth the
notebooks actually contain: call-free glue computation over already
bound values (attribute/index/key extraction, scalar arithmetic, len, a
comprehension). -/
inductive StepKind where
  | importStep
  | configStep
  | invokeStep
  | outputStep
  | extractStep
  deriving BEq

/-- Classify a statement: an import; an assignment of pure configuration
data, and the bounded constant-appending loop, configure parameters; an
assignment or bare statement containing a library call, and an in-place
mutating call, invoke a library API; a print statement or call-free
trailing bare expression prints or renders output; a call-free
assignment that extracts from or computes over already bound values is
glue computation, which is NOT one of the spec's four kinds.  A
try/except block, a file access, or a loop over computed data would be
none of the five. -/
def stmtKind : Stmt → Option StepKind
  | .importS _ _ => some .importStep
  | .assign _ e =>
    if exprHasCall e then some .invokeStep
    else if isConfigExpr exprFuel e then some .configStep
    else some .extractStep
  | .assign2 _ _ e =>
    if exprHasCall e then some .invokeStep
    else if isConfigExpr exprFuel e then some .configStep
    else some .extractStep
  | .mutateS _ _ _ => some .invokeStep
  | .exprS e => if exprHasCall e then some .invokeStep else some .outputStep
  | .printS _ => some .outputStep
  | .forRangeAppend _ n _ elt =>
    if exprHasCall n || exprHasCall elt then none
    else if isConfigExpr exprFuel n && isConfigExpr exprFuel elt then some .configStep
    else none
  | .tryCatch _ _ => none
  | .openFile _ _ _ => none

/-- Every statement of the notebook is one of the five kinds of step. -/
def progAllClassified (cells : List Cell) : Bool :=
  (progStmts cells).all (fun s => (stmtKind s).isSome)

/-- Is the statement one of the spec's FOUR kinds of step (import,
configure, invoke, output), glue computation not among them? -/
def stmtInFourKinds (s : Stmt) : Bool :=
  match stmtKind s with
  | some .extractStep => false
  | some _ => true
  | none => false

/-- Does every statement of the notebook fall in the spec's four kinds
of step? -/
def progFourKinds (cells : List Cell) : Bool :=
  (progStmts cells).all stmtInFourKinds

/-- The statements of the notebook classified as glue computation, in
program order. -/
def progExtractSteps (cells : List Cell) : List Stmt :=
  (progStmts cells).filter (fun s => stmtKind s == some .extractStep)

/-- Is a value a pure configuration literal: a number, complex number,
string or boolean literal, or a list/dict built from such? -/
def isConfigLit : ℕ → Val → Bool
  | _, .num _ => true
  | _, .cnum _ _ => true
  | _, .str _ => true
  | _, .bool _ => true
  | 0, _ => false
  | fuel + 1, .vlist vs => vs.all (isConfigLit fuel)
  | fuel + 1, .vdict kvs => kvs.all (fun kv => isConfigLit fuel kv.2)
  | _ + 1, _ => false

/-- Is a value literally the unchanged result of an external library
call? -/
def isExtResult (v : Val) : Bool :=
  match v with
  | .ext _ _ => true
  | _ => false

/-- Head classification of a runtime value: a configuration literal; a
value derived from the external libraries (a call result or an
attribute/index/key projection of one); or a value the repository code
computed itself (arithmetic, len, string formatting, a comprehension).
Values fitting none of these (for example a list mixing opaque results)
are unclassified. -/
def glueClassOf : Val → Option String := fun v =>
  if isConfigLit exprFuel v then some "configLit"
  else
    match v with
    | .ext _ _ => some "opaqueDerived"
    | .attr _ _ => some "opaqueDerived"
    | .item _ _ => some "opaqueDerived"
    | .gets _ _ => some "opaqueDerived"
    | .add _ _ => some "repoComputed"
    | .sub _ _ => some "repoComputed"
    | .lenV _ => some "repoComputed"
    | .fmtV _ _ => some "repoComputed"
    | .compV _ _ => some "repoComputed"
    | _ => none

/-
Spec-side composition terms.  Following the spec, each notebook's outputs
should be a composition of the external library calls applied to the
configured parameters.  The terms below are written directly as such
nested applications; the refinement theorems compare them with what the
embedded programs actually compute.
-/

/-- The configured statevector simulator backend. -/
def cBackend : Val := .ext "qiskit.Aer.get_backend" [.str "statevector_simulator"]

/-- The pass manager with the TketPass appended. -/
def cPassManager : Val := .ext "append" [.ext "PassManager" [], .ext "TketPass" [cBackend]]

/-- The quantum instance over the backend and pass manager. -/
def cQuantumInstance : Val := .ext "QuantumInstance" [cBackend, cPassManager]

/-- The PySCF configuration dictionary: the H2 geometry at bond length
0.7 obtained from the template, Angstrom units, charge 0, spin 0 and the
sto3g basis. -/
def cPyscfCfg : Val := .vdict [
  ("atom", .str "H .0 .0 .0; H .0 .0 0.7"),
  ("unit", .str "Angstrom"),
  ("charge", .num 0),
  ("spin", .num 0),
  ("basis", .str "sto3g")]

/-- The molecule returned by the PySCF driver run on the configuration. -/
def cMolecule : Val := .ext "run"
  [.ext "get_driver_instance" [.ext "ConfigurationManager" [], .str "PYSCF"],
   .vdict [("properties", cPyscfCfg)]]

/-- The qubit count: first entry of the one-body integrals shape. -/
def cNQubits : Val := .item (.attr (.attr cMolecule "one_body_integrals") "shape") 0

/-- The electron count: alpha plus beta electrons minus the charge. -/
def cNElectrons : Val :=
  .sub (.add (.attr cMolecule "num_alpha") (.attr cMolecule "num_beta"))
       (.attr cMolecule "molecular_charge")

/-- The fermionic operator over the molecular integrals. -/
def cFerOp : Val := .ext "FermionicOperator"
  [.attr cMolecule "one_body_integrals", .attr cMolecule "two_body_integrals"]

/-- The Jordan-Wigner mapping of the fermionic operator. -/
def cMapping : Val := .ext "mapping" [cFerOp, .str "JORDAN_WIGNER", .num (1/100000000)]

/-- The qubit operator after chopping small terms. -/
def cQubitOp : Val := .ext "chop" [cMapping, .num (1/10000000000)]

/-- The Hartree-Fock initial state. -/
def cInitialHf : Val :=
  .ext "HartreeFock" [cNQubits, cNQubits, .str "jordan_wigner", .bool false, cNElectrons]

/-- The UCCSD variational form. -/
def cVarForm : Val :=
  .ext "UCCSD" [cNQubits, cNQubits, cNElectrons, .num 1, cInitialHf, .str "jordan_wigner"]

/-- The initial amplitude list: one entry 0.00001 per excitation, given
ns single and nd double excitations of the variational form. -/
def cAmplitudes0 (ns nd : ℕ) : Val := .vlist (List.replicate (ns + nd) (.num (1/100000)))

/-- The configured L_BFGS_B optimizer. -/
def cOptimizer : Val := .ext "set_options" [.ext "L_BFGS_B" [], .num 1000, .num 10, .num 10]

/-- The VQE algorithm instance. -/
def cVqe (ns nd : ℕ) : Val :=
  .ext "VQE" [cQubitOp, .str "matrix", cVarForm, cOptimizer, cAmplitudes0 ns nd]

/-- The VQE run result. -/
def cResults (ns nd : ℕ) : Val := .ext "run" [cVqe ns nd, cQuantumInstance]

/-- The reported ground-state energy: real part of the first eigenvalue
plus the nuclear repulsion energy. -/
def cGsEnergy (ns nd : ℕ) : Val :=
  .add (.attr (.item (.gets (cResults ns nd) "eigvals") 0) "real")
       (.attr cMolecule "nuclear_repulsion_energy")

/-- The optimized amplitudes from the VQE run. -/
def cOptiAmps (ns nd : ℕ) : Val := .gets (cResults ns nd) "opt_params"

/-- The QSE matrix-terms helper over the rebuilt qubit operator.  The
qubit count is read off the freshly mapped operator before chopping. -/
def cQseMatrices : Val := .ext "QseMatrices" [cQubitOp, .attr cMapping "num_qubits"]

/-- The QSE algorithm instance. -/
def cQse (ns nd : ℕ) : Val :=
  .ext "QSE" [cQseMatrices, .str "matrix", cVarForm, cOptiAmps ns nd]

/-- The eigenvalue array of the QSE run. -/
def cEnergies (ns nd : ℕ) : Val := .gets (.ext "run" [cQse ns nd, cQuantumInstance]) "eigvals"

/-- The printed excited-state energies: the QSE eigenvalues shifted by
the nuclear repulsion energy. -/
def cExcitedPrinted (ns nd : ℕ) : Val :=
  .add (cEnergies ns nd) (.attr cMolecule "nuclear_repulsion_energy")

/-- The Grove target state array. -/
def cTargetState : Val :=
  .ext "np.array" [.vlist [.num (1/2), .cnum 0 (1/2), .cnum 0 (-1/2), .cnum 0 (1/2)]]

/-- The pyQuil circuit produced by Grove arbitrary state preparation. -/
def cQuilCirc : Val := .ext "create_arbitrary_state" [cTargetState]

/-- The tket circuit after conversion, optimisation and boundary-map
permutation. -/
def cTkCircPyquil : Val :=
  .ext "apply_boundary_map"
    [.ext "optimise_pre_routing" [.ext "pyquil_to_tk" [cQuilCirc]],
     .vlist [.num 1, .num 0]]

/-- The Qiskit circuit obtained through the DAG representation. -/
def cQisCirc : Val := .ext "dag_to_circuit" [.ext "tk_to_dagcircuit" [cTkCircPyquil]]

/-- The unitary simulator backend. -/
def cUnitaryBackend : Val := .ext "BasicAer.get_backend" [.str "unitary_simulator"]

/-- The printed unitary matrix of the executed job. -/
def cMatrix : Val :=
  .ext "get_unitary" [.ext "result" [.ext "execute" [cQisCirc, cUnitaryBackend]], cQisCirc]

/-- The 3x3 square grid architecture. -/
def cArc : Val := .ext "SquareGrid" [.num 3, .num 3]

/-- The nine grid qubits for indices range(9). -/
def cQubits : Val :=
  .ext "get_grid_qubits" [cArc, .vlist ((List.range 9).map (fun k => .num k))]

/-- The sample Cirq circuit. -/
def cCircuit : Val := .ext "cirq.Circuit.from_ops" [
  .ext "cirq.H" [.item cQubits 0],
  .ext "cirq.X" [.item cQubits 1],
  .ext "cirq.CNOT" [.item cQubits 0, .item cQubits 4],
  .ext "cirq.Y" [.item cQubits 2],
  .ext "cirq.CNOT" [.item cQubits 2, .item cQubits 4],
  .ext "cirq.CNOT" [.item cQubits 3, .item cQubits 4],
  .ext "cirq.Y" [.item cQubits 3],
  .ext "cirq.CNOT" [.item cQubits 3, .item cQubits 5],
  .ext "cirq.Z" [.item cQubits 4]]

/-- The routing result: the routed circuit and the qubit maps. -/
def cRouteRes : Val := .ext "route" [.ext "cirq_to_tk" [cCircuit], cArc]

/-- The routed tket circuit (first component). -/
def cTkRouted : Val := .item cRouteRes 0

/-- The pair of qubit maps (second component). -/
def cQmap : Val := .item cRouteRes 1

/-- The final qubit list: the comprehension over the first qubit map. -/
def cFinalQubits : Val := .compV cQubits (.item cQmap 0)

/-- The rendered routed circuit in Cirq form. -/
def cRoutedCirc : Val := .ext "tk_to_cirq" [cTkRouted, cFinalQubits]

/-
Decomposition of the QSE notebook around the amplitude loop, for the
theorems that run it with the excitation counts left generic.
-/

/-- The QSE statements before the three amplitude statements of cell 7. -/
def qsePre : List Stmt :=
  qseCell1 ++ qseCell2 ++ qseCell3 ++ qseCell4 ++ qseCell5 ++ qseCell6 ++
    [.importS "qiskit_aqua.components.optimizers" ["L_BFGS_B"],
     .importS "qiskit_aqua.algorithms" ["VQE"]]

/-- The three amplitude statements of cell 7. -/
def qseMid : List Stmt := [stNumberAmps, stAmps0Init, stAmpsLoop]

/-- The QSE statements after the amplitude loop. -/
def qsePost : List Stmt := [
  .assign "optimizer" (.ecall "L_BFGS_B" []),
  .mutateS "optimizer" "set_options" [.lit (.num 1000), .lit (.num 10), .lit (.num 10)],
  .assign "vqe_algorithm" (.ecall "VQE" [.evar "qubitOp", .lit (.str "matrix"), .evar "var_form", .evar "optimizer", .evar "amplitudes_0"]),
  .assign "results" (.emeth (.evar "vqe_algorithm") "run" [.evar "quantum_instance"]),
  stEigval, stGsEnergy, stPrintGs,
  .printS [.emeth (.lit (.str "GS Parameters: \x7b\x7d")) "format" [.eindex (.evar "results") (.lit (.str "opt_params"))]],
  .assign "opti_amplitudes" (.eindex (.evar "results") (.lit (.str "opt_params")))] ++
  qseCell8

/-- The environment after the statements before the amplitude loop,
under the symbolic interpretation. -/
def qseEnvPre : Env :=
  match execStmts symInterp [] qsePre with
  | .ok (env, _) => env
  | .error _ => []

/-- The effect trace of the statements before the amplitude loop, under
the symbolic interpretation. -/
def qseEffsPre : List Eff :=
  match execStmts symInterp [] qsePre with
  | .ok (_, effs) => effs
  | .error _ => []

/-- A sum of two natural numbers cast to ℚ has denominator one. -/
theorem natCastAddDen (a b : ℕ) : (((a : ℚ) + b)).den = 1 := by
  rw [← Nat.cast_add]
  exact Rat.den_natCast _

/-- A sum of two natural numbers cast to ℚ has nonnegative numerator. -/
theorem natCastAddNumNonneg (a b : ℕ) : 0 ≤ (((a : ℚ) + b)).num := by
  rw [← Nat.cast_add, Rat.num_natCast]
  exact Int.natCast_nonneg _

/-- Round trip of a sum of naturals through the ℚ numerator. -/
theorem natCastAddNumToNat (a b : ℕ) : (((a : ℚ) + b)).num.toNat = a + b := by
  rw [← Nat.cast_add, Rat.num_natCast, Int.toNat_natCast]

/-- A sum of two natural numbers cast to ℚ is nonnegative. -/
theorem natCastAddNonneg (a b : ℕ) : (0 : ℚ) ≤ (a : ℚ) + b := by positivity

/-- Mapping a monadic function over the empty list yields the
accumulator. -/
theorem mapMLoopNil {a b : Type} (f : a → Except String b) (acc : List b) :
    List.mapM.loop f [] acc = .ok acc.reverse := rfl

/-- Mapping a monadic function over a nonempty list steps through its
head. -/
theorem mapMLoopCons {a b : Type} (f : a → Except String b) (x : a) (xs : List a)
    (acc : List b) :
    List.mapM.loop f (x :: xs) acc =
      Bind.bind (f x) (fun y => List.mapM.loop f xs (y :: acc)) := rfl

/-- Executing the three amplitude statements of QSE cell 7: for any
interpretation giving the variational form concrete excitation lists,
number_amplitudes becomes the sum of their lengths and amplitudes_0
becomes that many copies of 0.00001. -/
theorem qse_mid_run (I : Interp) (env : Env) (vf : Val) (l1 l2 : List Val)
    (hvf : lookupEnv env "var_form" = some vf)
    (h1 : I.attr vf "_single_excitations" = .ok (.vlist l1))
    (h2 : I.attr vf "_double_excitations" = .ok (.vlist l2)) :
    execStmts I env qseMid =
      .ok (setEnv (setEnv (setEnv env "number_amplitudes"
              (.num ((l1.length : ℚ) + (l2.length : ℚ))))
            "amplitudes_0" (.vlist []))
            "amplitudes_0" (.vlist (List.replicate (l1.length + l2.length) (.num (1/100000)))), []) := by
  simp [qseMid, execStmts, execStmt, stNumberAmps, stAmps0Init, stAmpsLoop,
    evalExpr, exprFuel, hvf, h1, h2, exceptBindOk, addVal, litVal, setEnv, lookupEnv,
    mapMLoopNil, ratAdd_eq, natCastAddDen, natCastAddNumNonneg, natCastAddNonneg,
    natCastAddNumToNat]

/-- The environment right after the amplitude loop when the variational
form has ns single and nd double excitations. -/
abbrev qseEnvMid (ns nd : ℕ) : Env :=
  setEnv (setEnv (setEnv qseEnvPre "number_amplitudes" (.num ((ns : ℚ) + nd)))
    "amplitudes_0" (.vlist []))
    "amplitudes_0" (.vlist (List.replicate (ns + nd) (.num (1/100000))))

/-- The final environment of the QSE notebook under the symbolic
interpretation with ns single and nd double excitations. -/
def qseEnvFin (ns nd : ℕ) : Env :=
  match execStmts (symInterpX ns nd) (qseEnvMid ns nd) qsePost with
  | .ok (env, _) => env
  | .error _ => []

/-- The effects of the QSE statements after the amplitude loop. -/
def qseEffsPost (ns nd : ℕ) : List Eff :=
  match execStmts (symInterpX ns nd) (qseEnvMid ns nd) qsePost with
  | .ok (_, effs) => effs
  | .error _ => []

/-- The full symbolic run of the QSE notebook, for any excitation
counts: it succeeds, with the final environment and effect trace
decomposed around the amplitude loop. -/
theorem qse_run (ns nd : ℕ) :
    runProg (symInterpX ns nd) qseProg =
      .ok (qseEnvFin ns nd, qseEffsPre ++ qseEffsPost ns nd) := by
  have hsplit : progStmts qseProg = qsePre ++ (qseMid ++ qsePost) := rfl
  have hpre : execStmts (symInterpX ns nd) [] qsePre = .ok (qseEnvPre, qseEffsPre) := rfl
  have hvf : lookupEnv qseEnvPre "var_form" = some cVarForm := rfl
  have h1 : (symInterpX ns nd).attr cVarForm "_single_excitations" =
      .ok (.vlist (List.replicate ns (.ext "single_excitation" []))) := rfl
  have h2 : (symInterpX ns nd).attr cVarForm "_double_excitations" =
      .ok (.vlist (List.replicate nd (.ext "double_excitation" []))) := rfl
  have hmid := qse_mid_run (symInterpX ns nd) qseEnvPre cVarForm _ _ hvf h1 h2
  simp only [List.length_replicate] at hmid
  have hpost : execStmts (symInterpX ns nd) (qseEnvMid ns nd) qsePost =
      .ok (qseEnvFin ns nd, qseEffsPost ns nd) := rfl
  rw [runProg, hsplit, execStmts_append, hpre]
  dsimp only
  rw [execStmts_append, hmid]
  dsimp only
  rw [hpost]
  dsimp only
  rw [List.nil_append]

/-- C6: the configuration dictionary passed to the classical chemistry
driver is exactly the geometry string obtained by substituting the bond
length 0.7 into the H2 template, with unit Angstrom, charge 0, spin 0 and
basis sto3g; the shipped template is the H2 string (the LiH one being
commented out in the source), and the molecule is the driver run on
exactly this dictionary. -/
theorem c6_driver_config :
    runLookup (symInterpX 0 0) qseProg "pyscf_cfg" = some cPyscfCfg ∧
    runLookup (symInterpX 0 0) qseProg "base_molecule_str" =
      some (.str "H .0 .0 .0; H .0 .0 \x7b\x7d") ∧
    runLookup (symInterpX 0 0) qseProg "bond_length" = some (.num (7 / 10)) ∧
    runLookup (symInterpX 0 0) qseProg "molecule" = some cMolecule := by
  refine ⟨rfl, rfl, ?_, rfl⟩
  have h : runLookup (symInterpX 0 0) qseProg "bond_length" = some (.num bondLenQ) := rfl
  rw [h, bondLenQ_eq]

/-- C9: executing the three amplitude statements of QSE cell 7 under any
interpretation that gives the variational form concrete excitation lists,
the amplitudes_0 list has length equal to the number of single
excitations plus the number of double excitations, and every element
equals 0.00001. -/
theorem c9_amplitudes (I : Interp) (env : Env) (vf : Val) (l1 l2 : List Val)
    (hvf : lookupEnv env "var_form" = some vf)
    (h1 : I.attr vf "_single_excitations" = .ok (.vlist l1))
    (h2 : I.attr vf "_double_excitations" = .ok (.vlist l2)) :
    ∃ env' : Env, execStmts I env qseMid = .ok (env', []) ∧
      ∃ amps : List Val,
        lookupEnv env' "amplitudes_0" = some (.vlist amps) ∧
        amps.length = l1.length + l2.length ∧
        ∀ v ∈ amps, v = .num (1/100000) := by
  refine ⟨_, qse_mid_run I env vf l1 l2 hvf h1 h2, List.replicate (l1.length + l2.length) (.num (1/100000)), ?_, ?_, ?_⟩
  · rfl
  · exact List.length_replicate _ _
  · intro v hv
    exact List.eq_of_mem_replicate hv

/-- C9 witness: the amplitude statements at a concrete interpretation
with two single and one double excitation produce three entries 0.00001. -/
theorem c9_amplitudes_witness :
    ∃ env' : Env, execStmts (symInterpX 2 1) [("var_form", Val.ext "UCCSD" [])] qseMid = .ok (env', []) ∧
      ∃ amps : List Val,
        lookupEnv env' "amplitudes_0" = some (.vlist amps) ∧
        amps.length = (List.replicate 2 (Val.ext "single_excitation" [])).length +
          (List.replicate 1 (Val.ext "double_excitation" [])).length ∧
        ∀ v ∈ amps, v = .num (1/100000) :=
  c9_amplitudes (symInterpX 2 1) [("var_form", Val.ext "UCCSD" [])]
    (Val.ext "UCCSD" []) _ _ rfl rfl rfl

/-- C3: the notebooks install no error handling: none of the three
programs contains a try/except form, and for any interpretation of the
external libraries, if some statement of a notebook raises an error after
a successful prefix, the whole run returns that same error, executing no
further statement. -/
theorem c3_error_propagation :
    progHasTry qseProg = false ∧ progHasTry pyquilProg = false ∧
    progHasTry cirqProg = false ∧
    ∀ (I : Interp) (cells : List Cell) (pre : List Stmt) (s : Stmt) (post : List Stmt)
      (env' : Env) (t : List Eff) (e : String),
      progStmts cells = pre ++ s :: post →
      execStmts I [] pre = .ok (env', t) →
      execStmt I env' s = .error e →
      runProg I cells = .error e := by
  refine ⟨rfl, rfl, rfl, ?_⟩
  intro I cells pre s post env' t e hsplit hpre hs
  rw [runProg, hsplit, execStmts_append, hpre]
  dsimp only
  simp [execStmts, hs]

/-- An interpretation under which the PySCF driver run raises. -/
def failInterp : Interp where
  call := fun f vs => if f == "run" then .error "PySCFDriverError" else .ok (.ext f vs)
  attr := fun v f => .ok (.attr v f)

/-- The environment accumulated by the QSE notebook before the driver
run, under the failing interpretation. -/
def failEnvPre : Env :=
  match execStmts failInterp [] ((progStmts qseProg).take 20) with
  | .ok (env, _) => env
  | .error _ => []

/-- The effects emitted by the QSE notebook before the driver run, under
the failing interpretation. -/
def failEffsPre : List Eff :=
  match execStmts failInterp [] ((progStmts qseProg).take 20) with
  | .ok (_, effs) => effs
  | .error _ => []

/-- C3 witness: when the driver run raises, the whole QSE notebook run
returns exactly that error. -/
theorem c3_error_propagation_witness :
    runProg failInterp qseProg = .error "PySCFDriverError" :=
  c3_error_propagation.2.2.2 failInterp qseProg
    ((progStmts qseProg).take 20)
    (.assign "molecule" (.emeth (.evar "driver") "run" [.edict [("properties", .evar "pyscf_cfg")]]))
    ((progStmts qseProg).drop 21)
    failEnvPre failEffsPre "PySCFDriverError" rfl rfl rfl

/-- C8: every energy the QSE notebook reports is the library eigenvalue
shifted by the nuclear repulsion energy.  First part: executing the
eigval/gs_energy/print statements of cell 7 binds gs_energy to the real
part of the first entry of the eigvals array of the VQE result plus the
nuclear repulsion energy (the imaginary part being discarded), and prints
exactly that number.  Second part: the excited-state print of cell 8
prints the QSE eigenvalue array with the nuclear repulsion energy added
elementwise. -/
theorem c8_energy_shift :
    (∀ (I : Interp) (env : Env) (kvs : List (String × Val)) (a b q : ℚ)
       (cs : List Val) (m : Val),
      lookupEnv env "results" = some (.vdict kvs) →
      lookupKV kvs "eigvals" = some (.vlist (.cnum a b :: cs)) →
      lookupEnv env "molecule" = some m →
      I.attr (.cnum a b) "real" = .ok (.num a) →
      I.attr m "nuclear_repulsion_energy" = .ok (.num q) →
      execStmts I env [stEigval, stGsEnergy, stPrintGs] =
        .ok (setEnv (setEnv env "eigval" (.cnum a b)) "gs_energy" (.num (a + q)),
             [.printed [.str (pyFormat "GS Minimum value: \x7b\x7d" (floatRepr (a + q)))]])) ∧
    (∀ (I : Interp) (env : Env) (q : ℚ) (es : List ℚ) (m : Val),
      lookupEnv env "energies" = some (.vlist (es.map (fun e => Val.num e))) →
      lookupEnv env "molecule" = some m →
      I.attr m "nuclear_repulsion_energy" = .ok (.num q) →
      execStmt I env stPrintExcited =
        .ok (env, [.printed [.str "Excited State Energies: ",
                             .vlist (es.map (fun e => Val.num (e + q)))]])) := by
  constructor
  · intro I env kvs a b q cs m hres hkv hmol hreal hnre
    simp [execStmts, execStmt, stEigval, stGsEnergy, stPrintGs, evalExpr, exprFuel,
      evalArgs, hres, hkv, hmol, hreal, hnre, exceptBindOk, addVal, ratAdd_eq,
      litVal, formatVal, setEnv, lookupEnv, mapMLoopNil, mapMLoopCons]
  · intro I env q es m hen hmol hnre
    simp [execStmt, stPrintExcited, evalExpr, exprFuel, evalArgs, hen, hmol, hnre,
      exceptBindOk, addVal, ratAdd_eq, litVal, List.map_map, mapMLoopNil,
      mapMLoopCons, Function.comp]

/-- An interpretation that gives the nuclear repulsion energy the value 2
and reads real parts of complex numbers, leaving all else symbolic. -/
def nreInterp : Interp where
  call := fun f vs => .ok (.ext f vs)
  attr := fun v f =>
    if f == "nuclear_repulsion_energy" then .ok (.num 2)
    else
      match v, f with
      | .cnum a _, "real" => .ok (.num a)
      | _, _ => .ok (.attr v f)

/-- An environment holding a concrete VQE result with one eigenvalue
1 + 5i and a symbolic molecule. -/
def qseC8Env1 : Env :=
  [("results", .vdict [("eigvals", .vlist [.cnum 1 5]), ("opt_params", .ext "params" [])]),
   ("molecule", .ext "molecule" [])]

/-- An environment holding concrete QSE eigenvalues 3 and 4 and a
symbolic molecule. -/
def qseC8Env2 : Env :=
  [("energies", .vlist (List.map (fun e => Val.num e) [(3 : ℚ), 4])),
   ("molecule", .ext "molecule" [])]

/-- C8 witness: with eigenvalue 1 + 5i and nuclear repulsion energy 2,
the notebook binds and prints the ground-state energy 1 + 2, discarding
the imaginary part, and prints excited energies 3 + 2 and 4 + 2. -/
theorem c8_energy_shift_witness :
    execStmts nreInterp qseC8Env1 [stEigval, stGsEnergy, stPrintGs] =
      .ok (setEnv (setEnv qseC8Env1 "eigval" (.cnum 1 5)) "gs_energy" (.num ((1 : ℚ) + 2)),
           [.printed [.str (pyFormat "GS Minimum value: \x7b\x7d" (floatRepr ((1 : ℚ) + 2)))]]) ∧
    execStmt nreInterp qseC8Env2 stPrintExcited =
      .ok (qseC8Env2, [.printed [.str "Excited State Energies: ",
                                 .vlist (List.map (fun e => Val.num (e + 2)) [(3 : ℚ), 4])]]) :=
  ⟨c8_energy_shift.1 nreInterp qseC8Env1
      [("eigvals", .vlist [.cnum 1 5]), ("opt_params", .ext "params" [])]
      1 5 2 [] (.ext "molecule" []) rfl rfl rfl rfl rfl,
   c8_energy_shift.2 nreInterp qseC8Env2 2 [3, 4] (.ext "molecule" []) rfl rfl rfl⟩

/-- Indexing a concrete list by a list of in-bounds natural indices
succeeds and picks exactly the indexed elements. -/
theorem indexMap_spec (qs : List Val) : ∀ (js : List Val),
    (∀ j ∈ js, ∃ n : ℕ, j = .num (n : ℚ) ∧ n < qs.length) →
    ∃ ws : List Val, indexMap qs js = .ok ws ∧ ws.length = js.length ∧
      ∀ (i n : ℕ), js[i]? = some (.num (n : ℚ)) → ws[i]? = qs[n]?
  | [], _ => by
    refine ⟨[], rfl, rfl, ?_⟩
    intro i n hji
    simp at hji
  | j :: js, hb => by
    obtain ⟨n0, hj0, hn0⟩ := hb j (List.mem_cons_self j js)
    obtain ⟨ws', hws', hlen', hpt'⟩ :=
      indexMap_spec qs js (fun j' hj' => hb j' (List.mem_cons_of_mem j hj'))
    refine ⟨qs.get ⟨n0, hn0⟩ :: ws', ?_, by simp [hlen'], ?_⟩
    · subst hj0
      rw [indexMap, if_pos ⟨natCastDen n0, natCastNumNonneg n0⟩]
      have ht : ((n0 : ℚ)).num.toNat = n0 := natCastNumToNat n0
      rw [dif_pos (by rw [ht]; exact hn0)]
      rw [hws']
      dsimp only
      simp [List.get_eq_getElem, ht]
    · intro i n hji
      cases i with
      | zero =>
        rw [hj0] at hji
        simp only [List.getElem?_cons_zero, Option.some.injEq] at hji
        have hc : (n0 : ℚ) = (n : ℚ) := by injection hji
        have hnn : n0 = n := Nat.cast_injective hc
        subst hnn
        simp [List.getElem?_eq_getElem, hn0, List.get_eq_getElem]
      | succ i' =>
        simp only [List.getElem?_cons_succ] at hji ⊢
        exact hpt' i' n hji

/-- C10: in the Cirq routing example, when every entry of the first
routing map is an integer between 0 and 8 and the qubit list has nine
elements, the comprehension building final_qubits evaluates without any
out-of-bounds access, and the result has the same length as the first
routing map with final_qubits picking qubits at exactly the mapped
indices. -/
theorem c10_final_qubits (I : Interp) (env : Env) (qs js rest : List Val)
    (hq : lookupEnv env "qubits" = some (.vlist qs))
    (hm : lookupEnv env "qmap" = some (.vlist (.vlist js :: rest)))
    (hlen : qs.length = 9)
    (hb : ∀ j ∈ js, ∃ n : ℕ, j = .num (n : ℚ) ∧ n ≤ 8) :
    ∃ ws : List Val,
      execStmt I env stFinalQubits = .ok (setEnv env "final_qubits" (.vlist ws), []) ∧
      ws.length = js.length ∧
      ∀ (i n : ℕ), js[i]? = some (.num (n : ℚ)) → ws[i]? = qs[n]? := by
  have hb' : ∀ j ∈ js, ∃ n : ℕ, j = .num (n : ℚ) ∧ n < qs.length := by
    intro j hj
    obtain ⟨n, hjn, hn⟩ := hb j hj
    exact ⟨n, hjn, by omega⟩
  obtain ⟨ws, hws, hlenw, hpt⟩ := indexMap_spec qs js hb'
  refine ⟨ws, ?_, hlenw, hpt⟩
  simp [execStmt, stFinalQubits, evalExpr, exprFuel, hq, hm, exceptBindOk, litVal,
    hws, setEnv]

/-- The Cirq witness environment: nine grid qubits and a routing map
picking indices 8, 0 and 3. -/
def cirqWitEnv : Env :=
  [("qubits", .vlist ((List.range 9).map (fun k => Val.ext "gridQubit" [.num k]))),
   ("qmap", .vlist [.vlist [.num 8, .num 0, .num 3], .vlist []])]

/-- C10 witness: the comprehension run on the concrete witness
environment is in bounds and picks qubits 8, 0 and 3. -/
theorem c10_final_qubits_witness :
    ∃ ws : List Val,
      execStmt symInterp cirqWitEnv stFinalQubits =
        .ok (setEnv cirqWitEnv "final_qubits" (.vlist ws), []) ∧
      ws.length = ([Val.num 8, Val.num 0, Val.num 3] : List Val).length ∧
      ∀ (i n : ℕ), ([Val.num 8, Val.num 0, Val.num 3] : List Val)[i]? =
          some (.num (n : ℚ)) →
        ws[i]? = ((List.range 9).map (fun k => Val.ext "gridQubit" [.num k]))[n]? := by
  refine c10_final_qubits symInterp cirqWitEnv _ _ _ rfl rfl rfl ?_
  intro j hj
  simp only [List.mem_cons, List.not_mem_nil, or_false] at hj
  rcases hj with h | h | h
  · exact ⟨8, by rw [h]; norm_num, by omega⟩
  · exact ⟨0, by rw [h]; norm_num, by omega⟩
  · exact ⟨3, by rw [h]; norm_num, by omega⟩

/-- C1: every substantive computation is an external library call, and,
treating those calls as opaque uninterpreted functions, each notebook's
outputs are exactly the spec-side composition of those calls applied to
the configured parameters.  The Jordan-Wigner mapping, VQE, the QSE
matrix construction and diagonalization, the routing and the gate-set
translations all occur as call nodes of the embedded programs; under the
symbolic interpretation the QSE notebook's reported energies, the pyQuil
notebook's printed unitary and the Cirq notebook's rendered routed
circuit all equal the corresponding hand-written composition terms, for
any excitation counts of the variational form.  The only nodes of those
compositions not themselves library calls are the literal parameters,
the two scalar energy shifts, and the final-qubit comprehension. -/
theorem c1_glue_composition :
    (["mapping", "VQE", "QseMatrices", "QSE", "run"].all
        (fun f => (progCallNames qseProg).contains f)) = true ∧
    ((progCallNames cirqProg).contains "route") = true ∧
    (["pyquil_to_tk", "tk_to_dagcircuit", "dag_to_circuit"].all
        (fun f => (progCallNames pyquilProg).contains f)) = true ∧
    (["cirq_to_tk", "tk_to_cirq"].all
        (fun f => (progCallNames cirqProg).contains f)) = true ∧
    (∀ ns nd : ℕ,
      runLookup (symInterpX ns nd) qseProg "gs_energy" = some (cGsEnergy ns nd) ∧
      runLookup (symInterpX ns nd) qseProg "energies" = some (cEnergies ns nd) ∧
      runLookup (symInterpX ns nd) qseProg "opti_amplitudes" = some (cOptiAmps ns nd) ∧
      runEffs (symInterpX ns nd) qseProg = some [
        .printed [.str "Molecular repulsion energy: ",
                  .attr cMolecule "nuclear_repulsion_energy"],
        .printed [.fmtV "GS Minimum value: \x7b\x7d" (cGsEnergy ns nd)],
        .printed [.fmtV "GS Parameters: \x7b\x7d" (cOptiAmps ns nd)],
        .printed [.str "Excited State Energies: ", cExcitedPrinted ns nd]]) ∧
    runLookup symInterp pyquilProg "matrix" = some cMatrix ∧
    runEffs symInterp pyquilProg = some [.printed [cQuilCirc], .printed [cMatrix]] ∧
    runLookup symInterp cirqProg "final_qubits" = some cFinalQubits ∧
    runEffs symInterp cirqProg =
      some [.rendered cCircuit, .printed [cQmap], .rendered cRoutedCirc] := by
  refine ⟨rfl, rfl, rfl, rfl, ?_, rfl, rfl, rfl, rfl⟩
  intro ns nd
  have h := qse_run ns nd
  refine ⟨?_, ?_, ?_, ?_⟩
  · rw [runLookup, h]
    rfl
  · rw [runLookup, h]
    rfl
  · rw [runLookup, h]
    rfl
  · rw [runEffs, h]
    rfl

/-- The final environment of a successful run (empty on error). -/
def runEnv (I : Interp) (cells : List Cell) : Env :=
  match runProg I cells with
  | .ok (env, _) => env
  | .error _ => []

/-- Every binding of the environment falls in one of the three glue
classes. -/
def envAllClassified (env : Env) : Bool :=
  env.all (fun p => (glueClassOf p.2).isSome)

/-- The names bound to repository-computed values (arithmetic, len,
formatting or comprehension at the head), in environment order. -/
def envRepoComputedNames (env : Env) : List String :=
  (env.filter (fun p => glueClassOf p.2 == some "repoComputed")).map Prod.fst

/-- C2 counterexample: the value the QSE notebook binds to n_electrons is
an arithmetic combination (alpha plus beta electrons minus the charge) of
attributes of the driver result: it is neither a configuration literal
nor an opaque object returned unchanged by an external library call. -/
theorem c2_counterexample :
    runLookup (symInterpX 0 0) qseProg "n_electrons" = some cNElectrons ∧
    isConfigLit exprFuel cNElectrons = false ∧
    isExtResult cNElectrons = false := ⟨rfl, rfl, rfl⟩

/-- C2 amended: every value bound by the three notebooks is a
configuration literal, an external-library call result or a projection
of one, or a repository-computed glue value (scalar arithmetic, len,
formatting, comprehension); the repository-computed bindings are exactly
gs_energy and n_electrons in the QSE notebook and final_qubits in the
Cirq notebook, and none in the pyQuil notebook. -/
theorem c2_amended :
    (runProg (symInterpX 2 1) qseProg).isOk = true ∧
    envAllClassified (runEnv (symInterpX 2 1) qseProg) = true ∧
    envRepoComputedNames (runEnv (symInterpX 2 1) qseProg) = ["gs_energy", "n_electrons"] ∧
    (runProg symInterp pyquilProg).isOk = true ∧
    envAllClassified (runEnv symInterp pyquilProg) = true ∧
    envRepoComputedNames (runEnv symInterp pyquilProg) = [] ∧
    (runProg symInterp cirqProg).isOk = true ∧
    envAllClassified (runEnv symInterp cirqProg) = true ∧
    envRepoComputedNames (runEnv symInterp cirqProg) = ["final_qubits"] :=
  ⟨rfl, rfl, rfl, rfl, rfl, rfl, rfl, rfl, rfl⟩

/-- C4 counterexample: the statement gs_energy = eigval.real +
molecule.nuclear_repulsion_energy of QSE cell 7 is a statement of the
notebook that performs call-free glue computation — result extraction
and scalar arithmetic, not importing, parameter configuration, library
invocation, or output — so not every cell performs only the spec's four
kinds of step. -/
theorem c4_counterexample :
    (progStmts qseProg)[42]? = some stGsEnergy ∧
    stmtKind stGsEnergy = some .extractStep ∧
    stmtInFourKinds stGsEnergy = false ∧
    progFourKinds qseProg = false := ⟨rfl, rfl, rfl, rfl⟩

/-- C4 amended: each example is a linear sequence of notebook cells and
every statement performs one of five kinds of step: (a) importing an
external library, (b) configuring parameters (assignments of pure
configuration data and the constant amplitude loop), (c) invoking a
library API, (d) printing or rendering output, or (e) call-free glue
computation over already bound values; the glue-computation statements
are exactly the two n_qubits assignments, n_electrons,
number_amplitudes, eigval, gs_energy and opti_amplitudes in the QSE
notebook, and final_qubits in the Cirq notebook, with none in the pyQuil
notebook. -/
theorem c4_cell_steps_amended :
    progAllClassified qseProg = true ∧
    progAllClassified pyquilProg = true ∧
    progAllClassified cirqProg = true ∧
    progExtractSteps qseProg = [
      .assign "n_qubits" (.eindex (.eattr (.eattr (.evar "molecule") "one_body_integrals") "shape") (.lit (.num 0))),
      .assign "n_electrons" (.esub (.eadd (.eattr (.evar "molecule") "num_alpha") (.eattr (.evar "molecule") "num_beta")) (.eattr (.evar "molecule") "molecular_charge")),
      stNumberAmps,
      stEigval,
      stGsEnergy,
      .assign "opti_amplitudes" (.eindex (.evar "results") (.lit (.str "opt_params"))),
      .assign "n_qubits" (.eattr (.evar "qubitOp") "num_qubits")] ∧
    progExtractSteps pyquilProg = [] ∧
    progExtractSteps cirqProg = [stFinalQubits] :=
  ⟨rfl, rfl, rfl, rfl, rfl, rfl⟩

/-- Python file-access routine names. -/
def fileIONames : List String :=
  ["open", "read", "write", "close", "save", "load", "dump", "dumps",
   "to_csv", "savefig", "save_accounts"]

/-- Python modules for files, processes and other system surfaces. -/
def osModules : List String :=
  ["os", "io", "sys", "pathlib", "shutil", "socket", "subprocess",
   "argparse", "json", "pickle", "requests"]

/-- C5: the notebooks' only outward-facing operations are library calls
and printing/rendering: no statement opens a file, no call is a file
operation, and no import brings in a file, process, CLI or network
module; the import lists are exactly the quantum-computing libraries. -/
theorem c5_frame_effects :
    progOpensFile qseProg = false ∧
    progOpensFile pyquilProg = false ∧
    progOpensFile cirqProg = false ∧
    (progCallNames qseProg).all (fun f => !(fileIONames.contains f)) = true ∧
    (progCallNames pyquilProg).all (fun f => !(fileIONames.contains f)) = true ∧
    (progCallNames cirqProg).all (fun f => !(fileIONames.contains f)) = true ∧
    progImports qseProg =
      ["qiskit", "pytket", "qiskit_aqua", "qiskit.transpiler", "pytket.qiskit",
       "qiskit_aqua_chemistry.drivers", "qiskit_aqua_chemistry",
       "qiskit_aqua_chemistry.aqua_extensions.components.initial_states",
       "qiskit_aqua_chemistry.aqua_extensions.components.variational_forms",
       "qiskit_aqua.components.optimizers", "qiskit_aqua.algorithms",
       "pytket.chemistry"] ∧
    progImports pyquilProg =
      ["grove.alpha.arbitrary_state.arbitrary_state", "numpy", "pytket.pyquil",
       "pytket._circuit", "pytket.qiskit", "qiskit.converters", "qiskit"] ∧
    progImports cirqProg = ["cirq", "pytket._routing", "pytket.cirq"] ∧
    (progImports qseProg).all (fun m => !(osModules.contains m)) = true ∧
    (progImports pyquilProg).all (fun m => !(osModules.contains m)) = true ∧
    (progImports cirqProg).all (fun m => !(osModules.contains m)) = true :=
  ⟨rfl, rfl, rfl, rfl, rfl, rfl, rfl, rfl, rfl, rfl, rfl, rfl⟩

/-- Python concurrency modules. -/
def concurrencyModules : List String :=
  ["threading", "multiprocessing", "asyncio", "concurrent.futures"]

/-- Python concurrency primitives. -/
def concurrencyCalls : List String :=
  ["Thread", "Process", "Pool", "submit", "spawn", "run_in_executor",
   "create_task", "gather"]

/-- C7: the notebooks are single-threaded straight-line programs: no
imported module or call touches a concurrency primitive, and for every
interpretation the run of each notebook decomposes sequentially at every
point, the earlier statements' effects happening first from the initial
environment and the later ones continuing from the resulting
environment, in program order. -/
theorem c7_sequential :
    (progImports qseProg).all (fun m => !(concurrencyModules.contains m)) = true ∧
    (progImports pyquilProg).all (fun m => !(concurrencyModules.contains m)) = true ∧
    (progImports cirqProg).all (fun m => !(concurrencyModules.contains m)) = true ∧
    (progCallNames qseProg).all (fun f => !(concurrencyCalls.contains f)) = true ∧
    (progCallNames pyquilProg).all (fun f => !(concurrencyCalls.contains f)) = true ∧
    (progCallNames cirqProg).all (fun f => !(concurrencyCalls.contains f)) = true ∧
    (∀ (I : Interp) (k : ℕ),
      runProg I qseProg =
        match execStmts I [] ((progStmts qseProg).take k) with
        | .error e => .error e
        | .ok (env', t1) =>
          match execStmts I env' ((progStmts qseProg).drop k) with
          | .error e => .error e
          | .ok (env'', t2) => .ok (env'', t1 ++ t2)) ∧
    (∀ (I : Interp) (k : ℕ),
      runProg I pyquilProg =
        match execStmts I [] ((progStmts pyquilProg).take k) with
        | .error e => .error e
        | .ok (env', t1) =>
          match execStmts I env' ((progStmts pyquilProg).drop k) with
          | .error e => .error e
          | .ok (env'', t2) => .ok (env'', t1 ++ t2)) ∧
    (∀ (I : Interp) (k : ℕ),
      runProg I cirqProg =
        match execStmts I [] ((progStmts cirqProg).take k) with
        | .error e => .error e
        | .ok (env', t1) =>
          match execStmts I env' ((progStmts cirqProg).drop k) with
          | .error e => .error e
          | .ok (env'', t2) => .ok (env'', t1 ++ t2)) := by
  refine ⟨rfl, rfl, rfl, rfl, rfl, rfl, ?_, ?_, ?_⟩ <;>
  · intro I k
    rw [runProg]
    conv_lhs => rw [← List.take_append_drop k (progStmts _)]
    exact execStmts_append I [] _ _
